import Mathlib

/-!
Verification development for the AirTouch 3 integration
(`custom_components/airtouch3`): a shallow embedding in Lean 4 of the
protocol core — frame accumulator, state decoder, command encoder and
convergence client from `client.py`, together with the data model from
`models.py` — and theorems checking the natural-language specification
against it.

Conventions used by the embedding:
* Python `bytes`/`bytearray` values are `List Nat`, every element meant
  to be `< 256`; Python strings are lists of character codes (`List Nat`).
* Python integers are `Int` where sign matters, `Nat` where the source
  only handles non-negative values.
* Fallible code is embedded in `Except`; the asynchronous transport of
  `client.py` is embedded by passing the modelled device's behaviour
  (its response to each command) as explicit function arguments.
-/

namespace AirTouch3

/-! ### Protocol constants (`const.py`)

The module `const.py` is imported by `client.py` but is not part of the
source tree, so its values are modelled from the spec. -/

/-- Modelled from the spec: `const.STATE_MSG_SIZE`.  The spec fixes the
state broadcast frame at 492 bytes ("State broadcast frame: fixed 492
bytes"). -/
def STATE_MSG_SIZE : Nat := 492

/-- Modelled from the spec: `const.MSG_LENGTH`.  The spec fixes the
command frame length byte at 9 ("header, command code, length=9"). -/
def MSG_LENGTH : Nat := 9

/-- Modelled from the spec: `const.BRAND_REMAP_11`.  One of the "two
special brand IDs" with a mode remap table; the constant's own name in
`client.py` pins its value. -/
def BRAND_REMAP_11 : Nat := 11

/-- Modelled from the spec: `const.BRAND_REMAP_15`.  The second special
brand ID; the constant's own name in `client.py` pins its value. -/
def BRAND_REMAP_15 : Nat := 15

/-- Modelled from the spec: `const.BRAND_SPECIAL_FAN`.  The docstring of
`_decode_fan_speed` in `client.py` identifies it as brand 2 ("Brand 2
with supported=4: use value-1 as index"). -/
def BRAND_SPECIAL_FAN : Nat := 2

/-- Modelled from the spec: `const.STATE_ZONE_MAX`, the protocol maximum
zone count ("0 ≤ zone_count ≤ protocol maximum (16)"). -/
def STATE_ZONE_MAX : Nat := 16

/-- Modelled from the spec: `const.STATE_TOUCHPAD_COUNT`.  The protocol
has two touchpads ("Touchpad 1 or 2 is assigned to this zone"). -/
def STATE_TOUCHPAD_COUNT : Nat := 2

/-- Modelled from the spec: `const.STATE_SENSOR_SLOTS`.  Each of the 16
possible zones has two wireless-sensor slots, giving 32 slots. -/
def STATE_SENSOR_SLOTS : Nat := 32

/-- Modelled from the spec: the field offsets of `const.py`
(`OFFSET_DEVICE_ID`, `OFFSET_AC_STATUS`, ...).  The spec treats them as
opaque protocol constants ("actual offsets must be treated as protocol
constants reproduced byte-for-byte from the reference device"), so the
decoder below is parametrized over this record.  Name lengths
(`STATE_*_LENGTH`) are included for the same reason. -/
structure ProtocolConsts where
  OFFSET_DEVICE_ID : Nat
  OFFSET_SYSTEM_NAME : Nat
  STATE_SYSTEM_NAME_LENGTH : Nat
  OFFSET_AC_STATUS : Nat
  OFFSET_AC_BRAND : Nat
  OFFSET_AC_UNIT_ID : Nat
  OFFSET_AC_MODE : Nat
  OFFSET_AC_FAN : Nat
  OFFSET_AC_SETPOINT : Nat
  OFFSET_AC_ROOM_TEMP : Nat
  OFFSET_AC_ERROR : Nat
  OFFSET_AC_NAMES : Nat
  STATE_AC_NAME_LENGTH : Nat
  OFFSET_TOUCHPAD_ZONE : Nat
  OFFSET_TOUCHPAD_TEMP : Nat
  OFFSET_ZONE_NAMES : Nat
  STATE_ZONE_NAME_LENGTH : Nat
  OFFSET_GROUP_DATA : Nat
  OFFSET_ZONE_DATA : Nat
  OFFSET_ZONE_DAMPER : Nat
  OFFSET_ZONE_FEEDBACK : Nat
  OFFSET_WIRELESS_SENSORS : Nat
deriving Repr

/-- Modelled from the spec: a sample assignment of the unknown `const.py`
offsets, used only to evaluate the decoder on concrete frames.  Every
span it addresses lies inside a 492-byte frame. -/
def sampleConsts : ProtocolConsts where
  OFFSET_DEVICE_ID := 3
  OFFSET_SYSTEM_NAME := 16
  STATE_SYSTEM_NAME_LENGTH := 16
  OFFSET_AC_STATUS := 40
  OFFSET_AC_BRAND := 42
  OFFSET_AC_UNIT_ID := 44
  OFFSET_AC_MODE := 46
  OFFSET_AC_FAN := 48
  OFFSET_AC_SETPOINT := 50
  OFFSET_AC_ROOM_TEMP := 52
  OFFSET_AC_ERROR := 54
  OFFSET_AC_NAMES := 60
  STATE_AC_NAME_LENGTH := 8
  OFFSET_TOUCHPAD_ZONE := 80
  OFFSET_TOUCHPAD_TEMP := 82
  OFFSET_ZONE_NAMES := 210
  STATE_ZONE_NAME_LENGTH := 12
  OFFSET_GROUP_DATA := 90
  OFFSET_ZONE_DATA := 110
  OFFSET_ZONE_DAMPER := 130
  OFFSET_ZONE_FEEDBACK := 150
  OFFSET_WIRELESS_SENSORS := 170

/-! ### Data model (`models.py`) -/

/-- `models.AcMode`: AC operating modes (`IntEnum`). -/
inductive AcMode where
  | AUTO
  | HEAT
  | DRY
  | FAN
  | COOL
deriving Repr, DecidableEq

/-- The `IntEnum` value of an `AcMode` (`int(mode)` in Python). -/
def AcMode.toVal : AcMode → Nat
  | .AUTO => 0
  | .HEAT => 1
  | .DRY => 2
  | .FAN => 3
  | .COOL => 4

/-- The `AcMode(value)` constructor: `some` on a defined enum value,
`none` where Python raises `ValueError`. -/
def AcMode.fromVal : Nat → Option AcMode
  | 0 => some .AUTO
  | 1 => some .HEAT
  | 2 => some .DRY
  | 3 => some .FAN
  | 4 => some .COOL
  | _ => none

/-- `models.FanSpeed`: fan speed values (`IntEnum`). -/
inductive FanSpeed where
  | AUTO
  | QUIET
  | LOW
  | MEDIUM
  | HIGH
  | POWERFUL
deriving Repr, DecidableEq

/-- `models.AcState`: state for a single AC unit. -/
structure AcState where
  ac_number : Nat
  name : List Nat
  power_on : Bool
  mode : AcMode
  fan_speed : FanSpeed
  setpoint : Nat
  room_temp : Int
  brand_id : Nat
  has_error : Bool
  error_code : Nat
  supported_fan_speeds : List FanSpeed
  control_mode : Nat
deriving Repr

/-- `models.ZoneState`: state for a single zone.  Its fields are exactly
the eight declared in `models.py` (lines 49-60); in particular it does
NOT declare `data_index`, `temperature_control` or `has_sensor`. -/
structure ZoneState where
  zone_number : Nat
  name : List Nat
  is_on : Bool
  is_spill : Bool
  damper_percent : Nat
  active_program : Nat
  setpoint : Option Nat
  sensor_source : Nat
deriving Repr

/-- `models.SensorState`: wireless sensor state. -/
structure SensorState where
  sensor_number : Nat
  available : Bool
  low_battery : Bool
  temperature : Nat
deriving Repr

/-- `models.TouchpadState`: touchpad state (`assigned_zone` uses the
sentinel -1 for "unassigned"). -/
structure TouchpadState where
  touchpad_number : Nat
  assigned_zone : Int
  temperature : Option Nat
deriving Repr

/-- `models.SystemState`: complete parsed system state. -/
structure SystemState where
  raw_data : List Nat
  device_id : List Nat
  system_name : List Nat
  zone_count : Nat
  is_dual_ducted : Bool
  ac_units : List AcState
  zones : List ZoneState
  sensors : List SensorState
  touchpads : List TouchpadState
deriving Repr

/-! ### Brand tables and codecs (`client.py`) -/

/-- `client.GATEWAY_BRAND_MAP`: fallback gateway-unit-ID to brand
lookup (`dict.get` style: `none` when the key is absent). -/
def gatewayBrandMap : Nat → Option Nat
  | 0 => some 0
  | 5 => some 5
  | 8 => some 1
  | 13 => some 2
  | 15 => some 6
  | 16 => some 4
  | 18 => some 14
  | 20 => some 12
  | 21 => some 7
  | 31 => some 10
  | 34 => some 2
  | 224 => some 11
  | 225 => some 13
  | 226 => some 15
  | 255 => some 2
  | _ => none

/-- `AirTouch3Client._encode_mode`: encode an AC mode for a command,
applying the per-brand remap tables (`remap.get(value, value)`). -/
def encodeMode (mode : AcMode) (brand : Nat) : Nat :=
  let value := mode.toVal
  if brand = BRAND_REMAP_11 then
    match value with
    | 0 => 0
    | 1 => 2
    | 2 => 3
    | 3 => 4
    | 4 => 1
    | v => v
  else if brand = BRAND_REMAP_15 then
    match value with
    | 0 => 5
    | 1 => 2
    | 2 => 3
    | 3 => 4
    | 4 => 1
    | v => v
  else value

/-- `AirTouch3Client._decode_mode`: decode a mode from state, reversing
the brand remaps; unrecognized values fall back to `AcMode.AUTO`
(the `except ValueError` branch). -/
def decodeMode (value : Nat) (brand : Nat) : AcMode :=
  let value :=
    if brand = BRAND_REMAP_11 ∨ brand = BRAND_REMAP_15 then
      match value with
      | 0 => 0
      | 1 => 4
      | 2 => 1
      | 3 => 2
      | 4 => 3
      | 5 => 0
      | v => v
    else value
  (AcMode.fromVal value).getD .AUTO

/-- `AirTouch3Client._decode_supported_fans`: list of supported fan
speeds from the 4-bit supported bitmap. -/
def decodeSupportedFans (supported : Nat) : List FanSpeed :=
  if 4 ≤ supported then
    [.AUTO, .QUIET, .LOW, .MEDIUM, .HIGH, .POWERFUL]
  else if supported = 3 then
    [.AUTO, .LOW, .MEDIUM, .HIGH]
  else if supported = 2 then
    [.AUTO, .LOW, .HIGH]
  else
    [.AUTO, .LOW, .MEDIUM, .HIGH]

/-- `AirTouch3Client._decode_fan_speed`: decode a fan speed from the
state's low-nibble value, with the brand-15 and brand-2 quirks. -/
def decodeFanSpeed (value : Nat) (brand : Nat) (supported : Nat) : FanSpeed :=
  if brand = BRAND_REMAP_15 ∧ value = 4 then .AUTO
  else if value = 0 ∨ 5 ≤ value then .AUTO
  else
    let value :=
      if brand = BRAND_SPECIAL_FAN ∧ 4 ≤ supported then max 1 (value - 1) else value
    match value with
    | 1 => .LOW
    | 2 => .MEDIUM
    | 3 => .HIGH
    | 4 => .POWERFUL
    | _ => .AUTO

/-- `AirTouch3Client._encode_fan_speed`: encode a fan speed command
value (`value_map.get(speed, 0)` plus the brand-15/brand-2 quirks). -/
def encodeFanSpeed (speed : FanSpeed) (brand : Nat) (supported : Nat) : Nat :=
  if speed = FanSpeed.AUTO then
    if brand = BRAND_REMAP_15 then 4 else 0
  else
    let value :=
      match speed with
      | .QUIET => 1
      | .LOW => 1
      | .MEDIUM => 2
      | .HIGH => 3
      | .POWERFUL => 4
      | .AUTO => 0
    if brand = BRAND_SPECIAL_FAN ∧ 4 ≤ supported then value + 1 else value

/-- `AirTouch3Client._derive_control_mode`: control mode tier from
unit/brand IDs. -/
def deriveControlMode (unit_id : Nat) (brand_id : Nat) : Nat :=
  if unit_id = 0 ∧ brand_id = 0 then 0
  else if unit_id = 0 then 1
  else 2

/-! ### Frame accumulator (`client.MessageBuffer`)

`MessageBuffer.add_data` extends an owned buffer and then runs a
fixed-point loop: drop a leading internet-mode frame when the buffer is
long enough and bytes 100..107 are all zero, else slice off a leading
492-byte state frame, else stop.  The `while True` loop is embedded with
explicit fuel; every executed iteration shortens the buffer by at least
one byte (the sizes are positive), so fuel `buffer.length + 1` makes the
fuel bound unreachable.  `const.INTERNET_MSG_SIZE` is not in the source
tree; the spec only fixes it as larger than the 492-byte state frame, so
it is passed as the parameter `internetSize`. -/
def addDataAux (internetSize : Nat) : Nat → List Nat → List (List Nat) → List (List Nat) × List Nat
  | 0, buf, msgs => (msgs, buf)
  | fuel + 1, buf, msgs =>
    if internetSize ≤ buf.length ∧ (buf.drop 100).take 8 = List.replicate 8 0 then
      addDataAux internetSize fuel (buf.drop internetSize) msgs
    else if STATE_MSG_SIZE ≤ buf.length then
      addDataAux internetSize fuel (buf.drop STATE_MSG_SIZE) (msgs ++ [buf.take STATE_MSG_SIZE])
    else (msgs, buf)

/-- `MessageBuffer.add_data`: add `data` to the buffer and return the
complete messages together with the remaining buffer. -/
def addData (internetSize : Nat) (buffer data : List Nat) : List (List Nat) × List Nat :=
  let buf := buffer ++ data
  addDataAux internetSize (buf.length + 1) buf []

/-- Feeding a list of chunks to successive `add_data` calls on one
`MessageBuffer` that starts empty, collecting all emitted messages. -/
def feedAll (internetSize : Nat) (chunks : List (List Nat)) : List (List Nat) × List Nat :=
  chunks.foldl
    (fun acc chunk =>
      let r := addData internetSize acc.2 chunk
      (acc.1 ++ r.1, r.2))
    ([], [])

/-! ### Command encoder (`client.AirTouch3Client`) -/

/-- `AirTouch3Client._create_command`: 13-byte command message.
`const.MSG_HEADER` and the command codes are values of the missing
`const.py`, so the header is a parameter; the three parameter bytes are
masked with `& 0xFF` exactly as in the source, and the checksum is the
byte sum masked with `& 0xFF`. -/
def createCommand (header cmd p1 p2 p3 : Nat) : List Nat :=
  let message : List Nat :=
    [header, cmd, MSG_LENGTH, p1 &&& 0xFF, p2 &&& 0xFF, p3 &&& 0xFF,
     0x00, 0x00, 0x00, 0x00, 0x00, 0x00]
  message ++ [message.sum &&& 0xFF]

/-- `AirTouch3Client._create_time_sync_command`: the 0x8B time
synchronisation command built from a `datetime`'s year/month/day/
hour/minute fields (all non-negative, so `Nat` clamping with truncated
subtraction coincides with Python's `max(0, x - 1)`). -/
def createTimeSyncCommand (header cmdTimeSync year month day hour minute : Nat) : List Nat :=
  let message : List Nat :=
    [header, cmdTimeSync, MSG_LENGTH,
     year % 100,
     min 11 (month - 1),
     min 30 (day - 1),
     min 23 hour,
     min 58 (minute - 1),
     0x00, 0x00, 0x00, 0x00]
  message ++ [message.sum &&& 0xFF]

/-! ### State decoder (`AirTouch3Client._parse_state`)

Python strings are embedded as lists of character codes:
`bytes.decode("ascii", errors="ignore")` keeps exactly the bytes below
128, and `str.strip()` removes leading and trailing whitespace
characters. -/

/-- `bytes.decode("ascii", errors="ignore")`: drop all bytes ≥ 128. -/
def asciiIgnore (bs : List Nat) : List Nat :=
  bs.filter (· < 128)

/-- Whether an ASCII code is whitespace for Python's `str.strip()`
(tab, LF, VT, FF, CR, the FS..US separators, and space). -/
def isPyWhitespace (c : Nat) : Bool :=
  decide (c = 9 ∨ c = 10 ∨ c = 11 ∨ c = 12 ∨ c = 13 ∨
          c = 28 ∨ c = 29 ∨ c = 30 ∨ c = 31 ∨ c = 32)

/-- Python `str.strip()` on a list of character codes. -/
def stripWs (s : List Nat) : List Nat :=
  ((s.dropWhile isPyWhitespace).reverse.dropWhile isPyWhitespace).reverse

/-- Character codes of the decimal representation of a natural number
(Python `str(n)` for `n ≥ 0`). -/
def natDecCodes (n : Nat) : List Nat :=
  (Nat.toDigits 10 n).map Char.toNat

/-- The `name or default` idiom of `_parse_state`: the stripped decoded
name, or the default when it is empty. -/
def nameOrDefault (name dflt : List Nat) : List Nat :=
  if name.isEmpty then dflt else name

/-- Character codes of `f"AC {ac_num + 1}"`. -/
def acDefaultName (ac_num : Nat) : List Nat :=
  [65, 67, 32] ++ natDecCodes (ac_num + 1)

/-- Character codes of `f"Zone {zone_num + 1}"`. -/
def zoneDefaultName (zone_num : Nat) : List Nat :=
  [90, 111, 110, 101, 32] ++ natDecCodes (zone_num + 1)

/-- Character codes of the default system name `"AirTouch 3"`. -/
def systemDefaultName : List Nat :=
  [65, 105, 114, 84, 111, 117, 99, 104, 32, 51]

/-- The device-id string of `_parse_state`: the decimal digits of
`data[i] & 0x0F` for the 8 ID bytes, concatenated. -/
def deviceIdCodes (c : ProtocolConsts) (data : List Nat) : List Nat :=
  ((List.range 8).map fun i => natDecCodes (data.getD (c.OFFSET_DEVICE_ID + i) 0 &&& 0x0F)).flatten

/-- The zone-setpoint decode of `_parse_state` (client.py lines
562-567): the feedback byte's bits 5-7 are the sensor-source code; the
setpoint is bits 0-4 plus one, present only when the sensor-source code
is nonzero. -/
def zoneSetpointFromFeedback (feedback : Nat) : Option Nat :=
  let sensor_source := (feedback >>> 5) &&& 0x07
  let setpoint_raw := feedback &&& 0x1F
  if 0 < sensor_source then some (setpoint_raw + 1) else none

/-- How the embedded `_parse_state` can fail. -/
inductive ParseError where
  /-- `client.py` line 587 calls `ZoneState(...)` with the keyword
  arguments `data_index`, `temperature_control` and `has_sensor`, which
  the dataclass `models.ZoneState` does not declare; CPython's generated
  `__init__` raises `TypeError` on the first unexpected keyword. -/
  | zoneStateUnexpectedKeyword
deriving Repr, DecidableEq

/-- The per-AC-unit decode of `_parse_state` (the body of its
`for ac_num in range(2)` loop); it cannot fail. -/
def parseAcUnit (c : ProtocolConsts) (data : List Nat) (ac_num : Nat) : AcState :=
  let status := data.getD (c.OFFSET_AC_STATUS + ac_num) 0
  let power_on := (status &&& 0x80) != 0
  let has_error := (status &&& 0x02) != 0
  let brand_id0 := data.getD (c.OFFSET_AC_BRAND + ac_num) 0
  let unit_id := data.getD (c.OFFSET_AC_UNIT_ID + ac_num) 0
  let brand_id :=
    if brand_id0 = 0 then
      match gatewayBrandMap unit_id with
      | some b => b
      | none => brand_id0
    else brand_id0
  let mode_raw := data.getD (c.OFFSET_AC_MODE + ac_num) 0 &&& 0x7F
  let mode := decodeMode mode_raw brand_id
  let fan_byte := data.getD (c.OFFSET_AC_FAN + ac_num) 0
  let supported_bitmap := (fan_byte >>> 4) &&& 0x0F
  let fan_speed_value := fan_byte &&& 0x0F
  let fan_speed := decodeFanSpeed fan_speed_value brand_id supported_bitmap
  let supported_fans := decodeSupportedFans supported_bitmap
  let setpoint := data.getD (c.OFFSET_AC_SETPOINT + ac_num) 0 &&& 0x7F
  let room_temp_raw := data.getD (c.OFFSET_AC_ROOM_TEMP + ac_num) 0
  let room_temp : Int :=
    if 127 < room_temp_raw then (room_temp_raw : Int) - 256 else (room_temp_raw : Int)
  let error_low := data.getD (c.OFFSET_AC_ERROR + ac_num * 2) 0
  let error_high := data.getD (c.OFFSET_AC_ERROR + ac_num * 2 + 1) 0
  let error_code0 := error_low + (error_high <<< 8)
  let error_code :=
    if brand_id = BRAND_REMAP_11 ∧ 109 ≤ error_code0 ∧ error_code0 ≤ 116 then 0
    else error_code0
  let name_start := c.OFFSET_AC_NAMES + ac_num * c.STATE_AC_NAME_LENGTH
  let name := stripWs (asciiIgnore ((data.drop name_start).take c.STATE_AC_NAME_LENGTH))
  let control_mode := deriveControlMode unit_id brand_id
  { ac_number := ac_num
    name := nameOrDefault name (acDefaultName ac_num)
    power_on := power_on
    mode := mode
    fan_speed := fan_speed
    setpoint := setpoint
    room_temp := room_temp
    brand_id := brand_id
    has_error := has_error
    error_code := error_code
    supported_fan_speeds := supported_fans
    control_mode := control_mode }

/-- The per-zone decode of `_parse_state` (the body of its
`for zone_num in range(zone_count)` loop).  All fields are computed as
in the source, but the final `ZoneState(...)` call passes the keyword
arguments `data_index`, `temperature_control` and `has_sensor`, which
the dataclass `models.ZoneState` (models.py lines 49-60) does not
declare, so CPython raises `TypeError` there: the embedding throws
after computing the fields. -/
def parseZone (c : ProtocolConsts) (data : List Nat) (touchpad1_zone touchpad2_zone : Int)
    (zone_num : Nat) : Except ParseError ZoneState :=
  let name_start := c.OFFSET_ZONE_NAMES + zone_num * c.STATE_ZONE_NAME_LENGTH
  let name := stripWs (asciiIgnore ((data.drop name_start).take c.STATE_ZONE_NAME_LENGTH))
  let group_byte := data.getD (c.OFFSET_GROUP_DATA + zone_num) 0
  let data_index0 := (group_byte >>> 4) &&& 0x0F
  let data_index := if data_index0 < STATE_ZONE_MAX then data_index0 else zone_num
  let zone_data := data.getD (c.OFFSET_ZONE_DATA + data_index) 0
  let damper_byte := data.getD (c.OFFSET_ZONE_DAMPER + data_index) 0
  let damper_value := damper_byte &&& 0x7F
  let damper_percent := min 100 (damper_value * 5)
  let temp_control_byte := data.getD (c.OFFSET_ZONE_DAMPER + zone_num) 0
  let temperature_control := (temp_control_byte &&& 0x80) != 0
  let is_on := (zone_data &&& 0x80) != 0
  let is_spill := (zone_data &&& 0x40) != 0
  let active_program := (zone_data >>> 2) &&& 0x07
  let feedback := data.getD (c.OFFSET_ZONE_FEEDBACK + zone_num) 0
  let sensor_source := (feedback >>> 5) &&& 0x07
  let setpoint := zoneSetpointFromFeedback feedback
  let has_touchpad :=
    touchpad1_zone = (zone_num : Int) ∨ touchpad2_zone = (zone_num : Int)
  let sensor1_slot := zone_num * 2
  let sensor2_slot := zone_num * 2 + 1
  let has_wireless_sensor1 :=
    sensor1_slot < STATE_SENSOR_SLOTS ∧
      data.getD (c.OFFSET_WIRELESS_SENSORS + sensor1_slot) 0 &&& 0x80 ≠ 0
  let has_wireless_sensor2 :=
    sensor2_slot < STATE_SENSOR_SLOTS ∧
      data.getD (c.OFFSET_WIRELESS_SENSORS + sensor2_slot) 0 &&& 0x80 ≠ 0
  let has_sensor := has_touchpad ∨ has_wireless_sensor1 ∨ has_wireless_sensor2
  -- The source now calls `zones.append(ZoneState(zone_number=zone_num,
  -- data_index=data_index, ..., temperature_control=temperature_control,
  -- has_sensor=has_sensor))`.  `models.ZoneState` declares none of the
  -- fields `data_index`, `temperature_control`, `has_sensor`, so the
  -- dataclass constructor raises `TypeError` for every zone.
  throw .zoneStateUnexpectedKeyword

/-- The zones loop of `_parse_state`: decode `count` zones starting at
`zone_num`, propagating the first failure. -/
def parseZonesFrom (c : ProtocolConsts) (data : List Nat) (tp1 tp2 : Int)
    (zone_num : Nat) : Nat → Except ParseError (List ZoneState)
  | 0 => .ok []
  | count + 1 =>
    match parseZone c data tp1 tp2 zone_num with
    | .error e => .error e
    | .ok z =>
      match parseZonesFrom c data tp1 tp2 (zone_num + 1) count with
      | .error e => .error e
      | .ok rest => .ok (z :: rest)

/-- The per-touchpad decode of `_parse_state`. -/
def parseTouchpad (c : ProtocolConsts) (data : List Nat) (tp_index : Nat) : TouchpadState :=
  let zone_assign := data.getD (c.OFFSET_TOUCHPAD_ZONE + tp_index) 0
  let assigned_zone : Int := if 0 < zone_assign then (zone_assign : Int) - 1 else -1
  let temp_raw := data.getD (c.OFFSET_TOUCHPAD_TEMP + tp_index) 0
  let temp_value := temp_raw &&& 0x7F
  { touchpad_number := tp_index + 1
    assigned_zone := assigned_zone
    temperature := if 0 < temp_value then some temp_value else none }

/-- The per-wireless-sensor decode of `_parse_state`. -/
def parseSensor (c : ProtocolConsts) (data : List Nat) (sensor_index : Nat) : SensorState :=
  let raw := data.getD (c.OFFSET_WIRELESS_SENSORS + sensor_index) 0
  { sensor_number := sensor_index + 1
    available := (raw &&& 0x80) != 0
    low_battery := (raw &&& 0x40) != 0
    temperature := raw &&& 0x3F }

/-- `AirTouch3Client._parse_state`: parse a 492-byte state message into
a `SystemState`, or fail as CPython does. -/
def parseState (c : ProtocolConsts) (data : List Nat) : Except ParseError SystemState :=
  let device_id := deviceIdCodes c data
  let system_name :=
    stripWs (asciiIgnore ((data.drop c.OFFSET_SYSTEM_NAME).take c.STATE_SYSTEM_NAME_LENGTH))
  let zone_count := data.getD 352 0
  let is_dual_ducted := (data.getD 353 0 &&& 0x01) != 0
  let ac_units := (List.range 2).map (parseAcUnit c data)
  let touchpad1_zone : Int := (data.getD c.OFFSET_TOUCHPAD_ZONE 0 : Int) - 1
  let touchpad2_zone : Int := (data.getD (c.OFFSET_TOUCHPAD_ZONE + 1) 0 : Int) - 1
  match parseZonesFrom c data touchpad1_zone touchpad2_zone 0 zone_count with
  | .error e => .error e
  | .ok zones =>
    let touchpads := (List.range STATE_TOUCHPAD_COUNT).map (parseTouchpad c data)
    let sensors := (List.range STATE_SENSOR_SLOTS).map (parseSensor c data)
    .ok { raw_data := data
          device_id := device_id
          system_name := nameOrDefault system_name systemDefaultName
          zone_count := zone_count
          is_dual_ducted := is_dual_ducted
          ac_units := ac_units
          zones := zones
          sensors := sensors
          touchpads := touchpads }

/-! ### Convergence client (`client.AirTouch3Client`)

The convergence loops alternate "read the latest reported state" and
"send one directional nudge command whose response carries the new
state".  The transport is embedded by passing the modelled device's
behaviour explicitly: `up`/`down` map the state reported before a nudge
command to the state reported in that command's response.  The modelled
devices of the spec's testable properties always answer, so the
`None`-response aborts of the source are unreachable for them and the
embedding's device functions are total. -/

/-- Observable outcome of one `ac_set_temperature` call: the returned
boolean, the number of nudge commands sent, and the number of
`get_state` reads performed. -/
structure ConvTrace where
  ok : Bool
  nudges : Nat
  fetches : Nat
deriving Repr, DecidableEq

/-- The `for _ in range(30)` loop of `AirTouch3Client.ac_set_temperature`:
each iteration reads the current setpoint, succeeds if it equals the
target, and otherwise sends `ac_temp_up` or `ac_temp_down`; exhausting
the range returns failure. -/
def acSetTempLoop (up down : Int → Int) (target : Int) : Nat → Int → ConvTrace
  | 0, _ => ⟨false, 0, 0⟩
  | fuel + 1, current =>
    if current = target then ⟨true, 0, 1⟩
    else if current < target then
      let r := acSetTempLoop up down target fuel (up current)
      ⟨r.ok, r.nudges + 1, r.fetches + 1⟩
    else
      let r := acSetTempLoop up down target fuel (down current)
      ⟨r.ok, r.nudges + 1, r.fetches + 1⟩

/-- `AirTouch3Client.ac_set_temperature`: reject a target outside
`[MIN_TEMP, MAX_TEMP]` before any I/O, else run the 30-iteration
convergence loop from the currently reported setpoint.  `const.MIN_TEMP`
and `const.MAX_TEMP` are values of the missing `const.py`, so they are
parameters. -/
def acSetTemperature (minTemp maxTemp : Int) (up down : Int → Int)
    (target current : Int) : ConvTrace :=
  if target < minTemp ∨ maxTemp < target then ⟨false, 0, 0⟩
  else acSetTempLoop up down target 30 current

/-- The per-zone values the convergence loops read from a decoded state:
`zones[i].setpoint` and `zones[i].damper_percent`. -/
structure ZVal where
  setpoint : Option Int
  damper_percent : Int
deriving Repr, DecidableEq

/-- The `for iteration in range(max_iterations)` loop of
`AirTouch3Client.zone_set_value` (`max_iterations = 25`): bound-check
the zone index, read the current value on the requested axis (failing
when the temperature axis has no setpoint), succeed on equality, else
nudge via `zone_value_up` / `zone_value_down` whose response becomes the
next state.  Returns the boolean result and the number of nudge commands
sent. -/
def zoneSetValueLoop (upDev downDev : List ZVal → List ZVal) (zone_index : Nat)
    (target : Int) (is_temperature : Bool) : Nat → List ZVal → Bool × Nat
  | 0, _ => (false, 0)
  | fuel + 1, zones =>
    if zones.length ≤ zone_index then (false, 0)
    else
      match (if is_temperature then (zones.getD zone_index ⟨none, 0⟩).setpoint
             else some (zones.getD zone_index ⟨none, 0⟩).damper_percent) with
      | none => (false, 0)
      | some current =>
        if current = target then (true, 0)
        else if current < target then
          let r := zoneSetValueLoop upDev downDev zone_index target is_temperature fuel
            (upDev zones)
          (r.1, r.2 + 1)
        else
          let r := zoneSetValueLoop upDev downDev zone_index target is_temperature fuel
            (downDev zones)
          (r.1, r.2 + 1)

/-- `AirTouch3Client.zone_set_value`: one initial `get_state` (the
`zones0` argument is its result), then the 25-iteration loop.  There is
no range validation of `target` in the source. -/
def zoneSetValue (upDev downDev : List ZVal → List ZVal) (zone_index : Nat)
    (target : Int) (is_temperature : Bool) (zones0 : List ZVal) : Bool × Nat :=
  zoneSetValueLoop upDev downDev zone_index target is_temperature 25 zones0

/-- The `for _ in range(25)` loop of `AirTouch3Client.zone_set_damper`:
read the zone's damper percentage each iteration (via `get_state`, whose
cached value the previous nudge's response updated), succeed on
equality, else send a damper up/down command. -/
def zoneSetDamperLoop (upDev downDev : List ZVal → List ZVal) (zone_index : Nat)
    (target : Int) : Nat → List ZVal → Bool × Nat
  | 0, _ => (false, 0)
  | fuel + 1, zones =>
    if zones.length ≤ zone_index then (false, 0)
    else
      let current := (zones.getD zone_index ⟨none, 0⟩).damper_percent
      if current = target then (true, 0)
      else if current < target then
        let r := zoneSetDamperLoop upDev downDev zone_index target fuel (upDev zones)
        (r.1, r.2 + 1)
      else
        let r := zoneSetDamperLoop upDev downDev zone_index target fuel (downDev zones)
        (r.1, r.2 + 1)

/-- `AirTouch3Client.zone_set_damper`: clamp the requested percentage
with `min(100, max(0, target_percent))`, then run the 25-iteration
convergence loop. -/
def zoneSetDamper (upDev downDev : List ZVal → List ZVal) (zone_index : Nat)
    (target_percent : Int) (zones0 : List ZVal) : Bool × Nat :=
  let target := min 100 (max 0 target_percent)
  zoneSetDamperLoop upDev downDev zone_index target 25 zones0

/-- A modelled device response shifting one zone's setpoint by `d`. -/
def bumpSetpoint (d : Int) (z : ZVal) : ZVal :=
  { z with setpoint := z.setpoint.map (· + d) }

/-- Modelled device for the spec's first convergence scenario: each
nudge command's response moves the addressed zone's setpoint by exactly
one degree up. -/
def deviceTempUp (zone_index : Nat) (zones : List ZVal) : List ZVal :=
  zones.set zone_index (bumpSetpoint 1 (zones.getD zone_index ⟨none, 0⟩))

/-- Modelled device: each nudge response moves the addressed zone's
setpoint by exactly one degree down. -/
def deviceTempDown (zone_index : Nat) (zones : List ZVal) : List ZVal :=
  zones.set zone_index (bumpSetpoint (-1) (zones.getD zone_index ⟨none, 0⟩))

/-- Modelled device for the spec's second convergence scenario: the
reported state never changes, whatever commands are sent. -/
def deviceFrozen (zones : List ZVal) : List ZVal :=
  zones

/-! ### Helper lemmas -/

/-- Masking a `Nat` with `0xFF` is reduction modulo 256. -/
theorem and_255_eq_mod (n : Nat) : n &&& 255 = n % 256 := by
  simpa using Nat.and_pow_two_sub_one_eq_mod n 8

/-- Decoding any single zone fails: `client.py` passes the dataclass
`models.ZoneState` keyword arguments it does not declare. -/
theorem parseZone_eq_error (c : ProtocolConsts) (data : List Nat) (tp1 tp2 : Int)
    (zone_num : Nat) :
    parseZone c data tp1 tp2 zone_num = .error .zoneStateUnexpectedKeyword := rfl

/-- One unfolding step of the accumulator loop. -/
theorem addDataAux_succ (internetSize fuel : Nat) (buf : List Nat) (msgs : List (List Nat)) :
    addDataAux internetSize (fuel + 1) buf msgs =
      if internetSize ≤ buf.length ∧ (buf.drop 100).take 8 = List.replicate 8 0 then
        addDataAux internetSize fuel (buf.drop internetSize) msgs
      else if STATE_MSG_SIZE ≤ buf.length then
        addDataAux internetSize fuel (buf.drop STATE_MSG_SIZE) (msgs ++ [buf.take STATE_MSG_SIZE])
      else (msgs, buf) := rfl

/-- One unfolding step of the `ac_set_temperature` loop. -/
theorem acSetTempLoop_succ (up down : Int → Int) (target : Int) (fuel : Nat) (current : Int) :
    acSetTempLoop up down target (fuel + 1) current =
      if current = target then ⟨true, 0, 1⟩
      else if current < target then
        let r := acSetTempLoop up down target fuel (up current)
        ⟨r.ok, r.nudges + 1, r.fetches + 1⟩
      else
        let r := acSetTempLoop up down target fuel (down current)
        ⟨r.ok, r.nudges + 1, r.fetches + 1⟩ := rfl

/-- One unfolding step of the `zone_set_value` loop. -/
theorem zoneSetValueLoop_succ (upDev downDev : List ZVal → List ZVal) (zone_index : Nat)
    (target : Int) (is_temperature : Bool) (fuel : Nat) (zones : List ZVal) :
    zoneSetValueLoop upDev downDev zone_index target is_temperature (fuel + 1) zones =
      (if zones.length ≤ zone_index then (false, 0)
       else
        match (if is_temperature then (zones.getD zone_index ⟨none, 0⟩).setpoint
               else some (zones.getD zone_index ⟨none, 0⟩).damper_percent) with
        | none => (false, 0)
        | some current =>
          if current = target then (true, 0)
          else if current < target then
            let r := zoneSetValueLoop upDev downDev zone_index target is_temperature fuel
              (upDev zones)
            (r.1, r.2 + 1)
          else
            let r := zoneSetValueLoop upDev downDev zone_index target is_temperature fuel
              (downDev zones)
            (r.1, r.2 + 1)) := rfl

/-- `getD` after updating the same index. -/
theorem getD_set_self (l : List ZVal) (i : Nat) (a d : ZVal) (h : i < l.length) :
    (l.set i a).getD i d = a := by
  simp [List.getD_eq_getElem?_getD, List.getElem?_set_self, h]

/-- With the one-step device, the `ac_set_temperature` loop reaches the
target in exactly `|target - current|` nudges when the fuel exceeds that
distance. -/
theorem acLoop_oneStep (target : Int) :
    ∀ d fuel (cur : Int), (target - cur).natAbs = d → d < fuel →
      acSetTempLoop (· + 1) (· - 1) target fuel cur = ⟨true, d, d + 1⟩ := by
  intro d
  induction d with
  | zero =>
    intro fuel cur hd hf
    obtain ⟨f, rfl⟩ : ∃ f, fuel = f + 1 := ⟨fuel - 1, by omega⟩
    have hc : cur = target := by omega
    rw [acSetTempLoop_succ, if_pos hc]
  | succ d ih =>
    intro fuel cur hd hf
    obtain ⟨f, rfl⟩ : ∃ f, fuel = f + 1 := ⟨fuel - 1, by omega⟩
    have hne : ¬cur = target := by omega
    rw [acSetTempLoop_succ, if_neg hne]
    by_cases hlt : cur < target
    · rw [if_pos hlt]
      have hstep := ih f (cur + 1) (by omega) (by omega)
      simp only [hstep]
    · rw [if_neg hlt]
      have hstep := ih f (cur - 1) (by omega) (by omega)
      simp only [hstep]

/-- With the frozen device, the `ac_set_temperature` loop burns all its
fuel and fails whenever the start value differs from the target. -/
theorem acLoop_frozen (target : Int) :
    ∀ (fuel : Nat) (cur : Int), cur ≠ target →
      acSetTempLoop id id target fuel cur = ⟨false, fuel, fuel⟩ := by
  intro fuel
  induction fuel with
  | zero => intro cur _; rfl
  | succ f ih =>
    intro cur h
    rw [acSetTempLoop_succ, if_neg h]
    by_cases hlt : cur < target
    · rw [if_pos hlt]
      simp only [id_eq, ih cur h]
    · rw [if_neg hlt]
      simp only [id_eq, ih cur h]

/-- With the one-step device, the `zone_set_value` loop on the
temperature axis reaches the target in exactly `|target - current|`
nudges when the fuel exceeds that distance. -/
theorem zoneLoop_oneStep (zi : Nat) (target : Int) :
    ∀ d fuel (zones : List ZVal) (cur : Int), zi < zones.length →
      (zones.getD zi ⟨none, 0⟩).setpoint = some cur →
      (target - cur).natAbs = d → d < fuel →
      zoneSetValueLoop (deviceTempUp zi) (deviceTempDown zi) zi target true fuel zones =
        (true, d) := by
  intro d
  induction d with
  | zero =>
    intro fuel zones cur hzi hsp hd hf
    obtain ⟨f, rfl⟩ : ∃ f, fuel = f + 1 := ⟨fuel - 1, by omega⟩
    have hc : cur = target := by omega
    rw [zoneSetValueLoop_succ, if_neg (by omega : ¬zones.length ≤ zi)]
    simp only [if_true, hsp]
    rw [if_pos hc]
  | succ d ih =>
    intro fuel zones cur hzi hsp hd hf
    obtain ⟨f, rfl⟩ : ∃ f, fuel = f + 1 := ⟨fuel - 1, by omega⟩
    have hne : ¬cur = target := by omega
    rw [zoneSetValueLoop_succ, if_neg (by omega : ¬zones.length ≤ zi)]
    simp only [if_true, hsp]
    rw [if_neg hne]
    by_cases hlt : cur < target
    · rw [if_pos hlt]
      have hlen : zi < (deviceTempUp zi zones).length := by
        rw [deviceTempUp, List.length_set]
        exact hzi
      have hsp2 : ((deviceTempUp zi zones).getD zi ⟨none, 0⟩).setpoint = some (cur + 1) := by
        rw [deviceTempUp, getD_set_self _ _ _ _ hzi]
        simp only [bumpSetpoint, hsp, Option.map_some']
      have hstep := ih f (deviceTempUp zi zones) (cur + 1) hlen hsp2 (by omega) (by omega)
      simp only [hstep]
    · rw [if_neg hlt]
      have hlen : zi < (deviceTempDown zi zones).length := by
        rw [deviceTempDown, List.length_set]
        exact hzi
      have hsp2 : ((deviceTempDown zi zones).getD zi ⟨none, 0⟩).setpoint = some (cur - 1) := by
        rw [deviceTempDown, getD_set_self _ _ _ _ hzi]
        simp only [bumpSetpoint, hsp, Option.map_some']
        congr 1
      have hstep := ih f (deviceTempDown zi zones) (cur - 1) hlen hsp2 (by omega) (by omega)
      simp only [hstep]

/-- With the frozen device, the `zone_set_value` loop on the
temperature axis burns all its fuel and fails whenever the reported
setpoint differs from the target. -/
theorem zoneLoop_frozen (zi : Nat) (target : Int) :
    ∀ (fuel : Nat) (zones : List ZVal) (cur : Int), zi < zones.length →
      (zones.getD zi ⟨none, 0⟩).setpoint = some cur → cur ≠ target →
      zoneSetValueLoop deviceFrozen deviceFrozen zi target true fuel zones =
        (false, fuel) := by
  intro fuel
  induction fuel with
  | zero => intro zones cur _ _ _; rfl
  | succ f ih =>
    intro zones cur hzi hsp hne
    rw [zoneSetValueLoop_succ, if_neg (by omega : ¬zones.length ≤ zi)]
    simp only [if_true, hsp]
    rw [if_neg hne]
    by_cases hlt : cur < target
    · rw [if_pos hlt]
      simp only [deviceFrozen, ih zones cur hzi hsp hne]
    · rw [if_neg hlt]
      simp only [deviceFrozen, ih zones cur hzi hsp hne]

/-! ### Claim theorems -/

/-- C1: the claim says `_parse_state` returns a `SystemState` without
raising on every 492-byte frame.  The code does not: for any frame
whose zone count byte (offset 352) is nonzero, the first
`ZoneState(...)` construction raises `TypeError`, because `client.py`
passes the keyword arguments `data_index`, `temperature_control` and
`has_sensor` which the dataclass `models.ZoneState` does not declare.
This theorem evaluates the embedded decoder at such a frame: the
all-zero 492-byte frame with byte 352 set to 1. -/
theorem c1_decode_raises_on_one_zone_frame :
    ((List.replicate 492 0).set 352 1).length = 492 ∧
    parseState sampleConsts ((List.replicate 492 0).set 352 1) =
      .error .zoneStateUnexpectedKeyword := by
  exact ⟨by simp only [List.length_set, List.length_replicate], rfl⟩

/-- C2: for each of the two special brand IDs (11 and 15) and every AC
mode enum value, `_decode_mode` applied to `_encode_mode`'s output
returns the original mode. -/
theorem c2_mode_roundtrip_special_brands (m : AcMode) :
    decodeMode (encodeMode m BRAND_REMAP_11) BRAND_REMAP_11 = m ∧
    decodeMode (encodeMode m BRAND_REMAP_15) BRAND_REMAP_15 = m := by
  cases m <;> exact ⟨rfl, rfl⟩

/-- C4: every frame produced by `_create_command` and by
`_create_time_sync_command` is exactly 13 bytes long, and its last byte
is the sum of the preceding 12 bytes reduced modulo 256. -/
theorem c4_command_frames_length_and_checksum
    (header cmd p1 p2 p3 year month day hour minute : Nat) :
    (createCommand header cmd p1 p2 p3).length = 13 ∧
    (createCommand header cmd p1 p2 p3).getLast? =
      some (((createCommand header cmd p1 p2 p3).take 12).sum % 256) ∧
    (createTimeSyncCommand header cmd year month day hour minute).length = 13 ∧
    (createTimeSyncCommand header cmd year month day hour minute).getLast? =
      some (((createTimeSyncCommand header cmd year month day hour minute).take 12).sum % 256) := by
  refine ⟨rfl, ?_, rfl, ?_⟩ <;>
    simp [createCommand, createTimeSyncCommand, and_255_eq_mod]

/-- C7: for every zone feedback byte, the decoded zone setpoint is
`None` exactly when the sensor-source code (bits 5-7) is zero, and
equals `(feedback & 0x1F) + 1` whenever the sensor-source code is
positive. -/
theorem c7_zone_setpoint_decode (feedback : Nat) (hb : feedback < 256) :
    (zoneSetpointFromFeedback feedback = none ↔ (feedback >>> 5) &&& 0x07 = 0) ∧
    (0 < (feedback >>> 5) &&& 0x07 →
      zoneSetpointFromFeedback feedback = some ((feedback &&& 0x1F) + 1)) := by
  simp only [zoneSetpointFromFeedback]
  split_ifs with h
  · refine ⟨?_, fun _ => rfl⟩
    simp only [reduceCtorEq, false_iff]
    omega
  · refine ⟨?_, fun hpos => absurd hpos h⟩
    constructor
    · intro _
      omega
    · intro _
      rfl

/-- Witness for C7 at the concrete feedback byte `0x45`: sensor-source
is 2, so the setpoint decodes to `(0x45 & 0x1F) + 1 = 6`. -/
theorem c7_zone_setpoint_decode_witness : zoneSetpointFromFeedback 69 = some 6 := by
  have h := (c7_zone_setpoint_decode 69 (by decide)).2 (by decide)
  simpa using h

/-- C3 fails as stated: `FanSpeed.QUIET` encodes to the same wire value
as `FanSpeed.LOW` (the comment in `_encode_fan_speed` says Quiet is
"Treated same as Low"), and wire value 1 decodes to `FanSpeed.LOW`, so
encode-then-decode is not the identity on every `FanSpeed` value.
Concrete counterexample at brand 0, supported bitmap 0. -/
theorem c3_counterexample_quiet_decodes_as_low :
    decodeFanSpeed (encodeFanSpeed FanSpeed.QUIET 0 0) 0 0 = FanSpeed.LOW ∧
    FanSpeed.QUIET ≠ FanSpeed.LOW := by
  decide

/-- C3 amended: for every brand ID and supported-speeds bitmap,
encode-then-decode is the identity on `AUTO`, `LOW`, `MEDIUM` and
`HIGH`; `QUIET` encodes like `LOW` and decodes back as `LOW`;
`POWERFUL` round-trips exactly unless the brand is 15 (where wire value
4 means Auto) or the brand is 2 with a supported bitmap ≥ 4 (where the
encoder shifts it to 5, which decodes as Auto).  Conversely,
decode-then-encode is the identity on the wire values 0..4 except for
value 0 at brand 15 (Auto re-encodes as 4) and value 1 at brand 2 with
supported ≥ 4 (Low re-encodes as 2). -/
theorem c3_amended_fan_speed_roundtrip (brand supported : Nat) :
    (decodeFanSpeed (encodeFanSpeed .AUTO brand supported) brand supported = .AUTO) ∧
    (decodeFanSpeed (encodeFanSpeed .LOW brand supported) brand supported = .LOW) ∧
    (decodeFanSpeed (encodeFanSpeed .MEDIUM brand supported) brand supported = .MEDIUM) ∧
    (decodeFanSpeed (encodeFanSpeed .HIGH brand supported) brand supported = .HIGH) ∧
    (decodeFanSpeed (encodeFanSpeed .QUIET brand supported) brand supported = .LOW) ∧
    (brand ≠ BRAND_REMAP_15 → ¬(brand = BRAND_SPECIAL_FAN ∧ 4 ≤ supported) →
      decodeFanSpeed (encodeFanSpeed .POWERFUL brand supported) brand supported = .POWERFUL) ∧
    (∀ v : Nat, v ≤ 4 → ¬(v = 0 ∧ brand = BRAND_REMAP_15) →
      ¬(v = 1 ∧ brand = BRAND_SPECIAL_FAN ∧ 4 ≤ supported) →
      encodeFanSpeed (decodeFanSpeed v brand supported) brand supported = v) := by
  simp only [BRAND_REMAP_15, BRAND_SPECIAL_FAN]
  by_cases h15 : brand = 15
  · subst h15
    refine ⟨?_, ?_, ?_, ?_, ?_, ?_, fun v hv h0 h1 => ?_⟩
    · simp [encodeFanSpeed, decodeFanSpeed, BRAND_REMAP_15, BRAND_SPECIAL_FAN]
    · simp [encodeFanSpeed, decodeFanSpeed, BRAND_REMAP_15, BRAND_SPECIAL_FAN]
    · simp [encodeFanSpeed, decodeFanSpeed, BRAND_REMAP_15, BRAND_SPECIAL_FAN]
    · simp [encodeFanSpeed, decodeFanSpeed, BRAND_REMAP_15, BRAND_SPECIAL_FAN]
    · simp [encodeFanSpeed, decodeFanSpeed, BRAND_REMAP_15, BRAND_SPECIAL_FAN]
    · intro h _
      exact absurd rfl h
    · interval_cases v
      · exact absurd ⟨rfl, rfl⟩ h0
      all_goals simp [encodeFanSpeed, decodeFanSpeed, BRAND_REMAP_15, BRAND_SPECIAL_FAN]
  · by_cases h2 : brand = 2
    · subst h2
      by_cases hs : 4 ≤ supported
      · refine ⟨?_, ?_, ?_, ?_, ?_, ?_, fun v hv h0 h1 => ?_⟩
        · simp [encodeFanSpeed, decodeFanSpeed, BRAND_REMAP_15, BRAND_SPECIAL_FAN, hs]
        · simp [encodeFanSpeed, decodeFanSpeed, BRAND_REMAP_15, BRAND_SPECIAL_FAN, hs]
        · simp [encodeFanSpeed, decodeFanSpeed, BRAND_REMAP_15, BRAND_SPECIAL_FAN, hs]
        · simp [encodeFanSpeed, decodeFanSpeed, BRAND_REMAP_15, BRAND_SPECIAL_FAN, hs]
        · simp [encodeFanSpeed, decodeFanSpeed, BRAND_REMAP_15, BRAND_SPECIAL_FAN, hs]
        · intro _ h
          exact absurd ⟨rfl, hs⟩ h
        · interval_cases v
          · simp [encodeFanSpeed, decodeFanSpeed, BRAND_REMAP_15, BRAND_SPECIAL_FAN, hs]
          · exact absurd ⟨rfl, rfl, hs⟩ h1
          · simp [encodeFanSpeed, decodeFanSpeed, BRAND_REMAP_15, BRAND_SPECIAL_FAN, hs]
          · simp [encodeFanSpeed, decodeFanSpeed, BRAND_REMAP_15, BRAND_SPECIAL_FAN, hs]
          · simp [encodeFanSpeed, decodeFanSpeed, BRAND_REMAP_15, BRAND_SPECIAL_FAN, hs]
      · refine ⟨?_, ?_, ?_, ?_, ?_, ?_, fun v hv h0 h1 => ?_⟩
        · simp [encodeFanSpeed, decodeFanSpeed, BRAND_REMAP_15, BRAND_SPECIAL_FAN, hs]
        · simp [encodeFanSpeed, decodeFanSpeed, BRAND_REMAP_15, BRAND_SPECIAL_FAN, hs]
        · simp [encodeFanSpeed, decodeFanSpeed, BRAND_REMAP_15, BRAND_SPECIAL_FAN, hs]
        · simp [encodeFanSpeed, decodeFanSpeed, BRAND_REMAP_15, BRAND_SPECIAL_FAN, hs]
        · simp [encodeFanSpeed, decodeFanSpeed, BRAND_REMAP_15, BRAND_SPECIAL_FAN, hs]
        · intro _ _
          simp [encodeFanSpeed, decodeFanSpeed, BRAND_REMAP_15, BRAND_SPECIAL_FAN, hs]
        · interval_cases v
          all_goals simp [encodeFanSpeed, decodeFanSpeed, BRAND_REMAP_15, BRAND_SPECIAL_FAN, hs]
    · refine ⟨?_, ?_, ?_, ?_, ?_, ?_, fun v hv h0 h1 => ?_⟩
      · simp [encodeFanSpeed, decodeFanSpeed, BRAND_REMAP_15, BRAND_SPECIAL_FAN, h15, h2]
      · simp [encodeFanSpeed, decodeFanSpeed, BRAND_REMAP_15, BRAND_SPECIAL_FAN, h15, h2]
      · simp [encodeFanSpeed, decodeFanSpeed, BRAND_REMAP_15, BRAND_SPECIAL_FAN, h15, h2]
      · simp [encodeFanSpeed, decodeFanSpeed, BRAND_REMAP_15, BRAND_SPECIAL_FAN, h15, h2]
      · simp [encodeFanSpeed, decodeFanSpeed, BRAND_REMAP_15, BRAND_SPECIAL_FAN, h15, h2]
      · intro _ _
        simp [encodeFanSpeed, decodeFanSpeed, BRAND_REMAP_15, BRAND_SPECIAL_FAN, h15, h2]
      · interval_cases v
        all_goals simp [encodeFanSpeed, decodeFanSpeed, BRAND_REMAP_15, BRAND_SPECIAL_FAN, h15, h2]

/-- Witness for the amended C3 at brand 3, supported bitmap 3: the LOW
round-trip and the POWERFUL round-trip hold there. -/
theorem c3_amended_fan_speed_roundtrip_witness :
    decodeFanSpeed (encodeFanSpeed .LOW 3 3) 3 3 = .LOW ∧
    decodeFanSpeed (encodeFanSpeed .POWERFUL 3 3) 3 3 = .POWERFUL ∧
    encodeFanSpeed (decodeFanSpeed 4 3 3) 3 3 = 4 := by
  have h := c3_amended_fan_speed_roundtrip 3 3
  exact ⟨h.2.1, h.2.2.2.2.2.1 (by decide) (by decide),
    h.2.2.2.2.2.2 4 (by decide) (by decide) (by decide)⟩

/-- C9 fails as stated for `zone_set_value`: unlike
`ac_set_temperature`, it performs no range validation at all — it
fetches state and sends nudge commands toward any target.  At the
target 1000 (outside any device-supported temperature range; decoded
setpoints are 7-bit) with a modelled one-step device reporting setpoint
999, it sends one nudge command (I/O) and even returns success. -/
theorem c9_counterexample_zone_set_value_no_validation :
    zoneSetValue (deviceTempUp 0) (deviceTempDown 0) 0 1000 true [⟨some 999, 50⟩] =
      (true, 1) := by
  decide

/-- C9 amended: `ac_set_temperature` rejects every target outside
`[MIN_TEMP, MAX_TEMP]` before any I/O — it returns failure with zero
nudge commands sent and zero state fetches, for every modelled device
behaviour; `zone_set_value` performs no such validation (see the
counterexample). -/
theorem c9_amended_ac_validation_before_io (minTemp maxTemp target current : Int)
    (up down : Int → Int) (h : target < minTemp ∨ maxTemp < target) :
    acSetTemperature minTemp maxTemp up down target current = ⟨false, 0, 0⟩ := by
  simp only [acSetTemperature, if_pos h]

/-- Witness for the amended C9: target 100 with range `[18, 28]` is
rejected with no I/O. -/
theorem c9_amended_ac_validation_before_io_witness :
    acSetTemperature 18 28 id id 100 20 = ⟨false, 0, 0⟩ :=
  c9_amended_ac_validation_before_io 18 28 100 20 id id (by decide)

/-- C10: `zone_set_damper` clamps its requested percentage with
`min(100, max(0, target_percent))` before the convergence loop, so any
call behaves identically to the call with the clamped target. -/
theorem c10_zone_set_damper_clamps (upDev downDev : List ZVal → List ZVal)
    (zone_index : Nat) (target_percent : Int) (zones0 : List ZVal) :
    zoneSetDamper upDev downDev zone_index target_percent zones0 =
      zoneSetDamper upDev downDev zone_index (min 100 (max 0 target_percent)) zones0 := by
  have h : min 100 (max 0 (min 100 (max 0 target_percent))) = min 100 (max 0 target_percent) := by
    omega
  simp only [zoneSetDamper, h]

set_option maxRecDepth 10000 in
/-- C5 fails as stated: the emitted frames are not independent of the
chunk boundaries.  With `INTERNET_MSG_SIZE` modelled as 600 (the spec
only fixes it as larger than the 492-byte state frame; the argument
works for any such value), take an internet-mode frame of 600 zero
bytes (its bytes 100-107 are zero) followed by a state frame of 492
one-bytes.  Splitting the stream after 492 bytes makes the first
`add_data` call slice the internet frame's prefix off as a bogus state
frame, after which the second call discards the rest of the stream as
an internet frame — one frame is emitted from the internet-mode span
and the real state frame is never emitted — whereas the unsplit stream
yields exactly the state frame. -/
theorem c5_counterexample_chunk_dependent_framing :
    (List.replicate 600 0).take 492 ++
        ((List.replicate 600 0).drop 492 ++ List.replicate 492 1) =
      List.replicate 600 (0 : Nat) ++ List.replicate 492 1 ∧
    feedAll 600 [(List.replicate 600 0).take 492,
        (List.replicate 600 0).drop 492 ++ List.replicate 492 1] =
      ([List.replicate 492 0], []) ∧
    List.replicate 492 (0 : Nat) ≠ List.replicate 492 1 := by
  refine ⟨by rw [← List.append_assoc, List.take_append_drop], by decide, by decide⟩

/-- C5 amended: the claim holds when the whole stream reaches one
`add_data` call (and, more generally, whenever no call sees a buffer
that already holds 492 bytes of the internet frame but not all of it):
for every internet-frame size larger than 492, feeding one
internet-mode frame (bytes 100-107 zero) followed by one 492-byte state
frame in a single `add_data` call on an empty buffer emits exactly the
state frame and leaves the buffer empty.  Chunk-boundary independence
itself is false (see the counterexample). -/
theorem c5_amended_single_feed (internetSize : Nat) (inet st : List Nat)
    (hN : 492 < internetSize) (hI : inet.length = internetSize)
    (hz : (inet.drop 100).take 8 = List.replicate 8 0)
    (hS : st.length = 492) :
    addData internetSize [] (inet ++ st) = ([st], []) := by
  have hz2 : ((inet ++ st).drop 100).take 8 = List.replicate 8 0 := by
    rw [List.drop_append_eq_append_drop]
    have h0 : 100 - inet.length = 0 := by omega
    rw [h0, List.drop_zero, List.take_append_eq_append_take]
    have h8 : 8 - (inet.drop 100).length = 0 := by
      rw [List.length_drop]
      omega
    rw [h8, List.take_zero, List.append_nil]
    exact hz
  have hdropN : (inet ++ st).drop internetSize = st := by
    rw [List.drop_append_eq_append_drop, ← hI, List.drop_length, Nat.sub_self,
      List.drop_zero, List.nil_append]
  have htake : st.take STATE_MSG_SIZE = st := by
    show st.take 492 = st
    rw [← hS, List.take_length]
  have hdrop : st.drop STATE_MSG_SIZE = [] := by
    show st.drop 492 = []
    rw [← hS, List.drop_length]
  simp only [addData, List.nil_append]
  rw [List.length_append, hI, hS]
  rw [addDataAux_succ, if_pos ⟨by rw [List.length_append, hI, hS]; omega, hz2⟩, hdropN]
  have e1 : internetSize + 492 = internetSize + 491 + 1 := by omega
  rw [e1, addDataAux_succ,
    if_neg (by rw [hS]; intro hcon; exact absurd hcon.1 (by omega)),
    if_pos (by rw [hS]; exact Nat.le_refl 492), htake, hdrop, List.nil_append]
  have e2 : internetSize + 491 = internetSize + 490 + 1 := by omega
  rw [e2, addDataAux_succ,
    if_neg (by intro hcon; simp at hcon),
    if_neg (by simp [STATE_MSG_SIZE])]

set_option maxRecDepth 10000 in
/-- Witness for the amended C5 at the concrete stream of the
counterexample, fed whole: exactly the state frame is emitted. -/
theorem c5_amended_single_feed_witness :
    (492 < 600 ∧ (List.replicate 600 (0 : Nat)).length = 600 ∧
      ((List.replicate 600 (0 : Nat)).drop 100).take 8 = List.replicate 8 0 ∧
      (List.replicate 492 (1 : Nat)).length = 492) ∧
    addData 600 [] (List.replicate 600 0 ++ List.replicate 492 1) =
      ([List.replicate 492 1], []) :=
  ⟨⟨by decide, by decide, by decide, by decide⟩,
    c5_amended_single_feed 600 (List.replicate 600 0) (List.replicate 492 1)
      (by decide) (by decide) (by decide) (by decide)⟩

/-- C6: against the modelled one-step device, `ac_set_temperature`
reaches any in-range target from any in-range start in exactly
`|target - current|` nudges — at most `MAX_TEMP - MIN_TEMP` iterations —
and returns success, succeeding immediately (no nudge) when already at
target; against the modelled frozen device it returns failure after
exactly the 30-iteration cap, without raising.  Likewise
`zone_set_value` on the temperature axis reaches the target with the
one-step device in `|target - current|` nudges and fails after exactly
its 25-iteration cap with the frozen device.  `MIN_TEMP`/`MAX_TEMP` are
values of the missing `const.py`; the spec requires each cap to exceed
the maximum possible distance, which the hypothesis
`maxTemp - minTemp ≤ 24` expresses for both caps. -/
theorem c6_convergence_loops (minTemp maxTemp target current : Int) (zi : Nat)
    (zs : List ZVal)
    (hw : maxTemp - minTemp ≤ 24)
    (hc1 : minTemp ≤ current) (hc2 : current ≤ maxTemp)
    (ht1 : minTemp ≤ target) (ht2 : target ≤ maxTemp)
    (hzi : zi < zs.length)
    (hsp : (zs.getD zi ⟨none, 0⟩).setpoint = some current) :
    ((acSetTemperature minTemp maxTemp (· + 1) (· - 1) target current).ok = true ∧
      (acSetTemperature minTemp maxTemp (· + 1) (· - 1) target current).nudges =
        (target - current).natAbs ∧
      ((target - current).natAbs : Int) ≤ maxTemp - minTemp) ∧
    (current = target →
      acSetTemperature minTemp maxTemp (· + 1) (· - 1) target current = ⟨true, 0, 1⟩) ∧
    (current ≠ target →
      acSetTemperature minTemp maxTemp id id target current = ⟨false, 30, 30⟩) ∧
    ((zoneSetValue (deviceTempUp zi) (deviceTempDown zi) zi target true zs).1 = true ∧
      (zoneSetValue (deviceTempUp zi) (deviceTempDown zi) zi target true zs).2 =
        (target - current).natAbs) ∧
    (current ≠ target →
      zoneSetValue deviceFrozen deviceFrozen zi target true zs = (false, 25)) := by
  have hnotout : ¬(target < minTemp ∨ maxTemp < target) := by omega
  have hone := acLoop_oneStep target ((target - current).natAbs) 30 current rfl (by omega)
  refine ⟨?_, ?_, ?_, ?_, ?_⟩
  · rw [acSetTemperature, if_neg hnotout, hone]
    exact ⟨rfl, rfl, by omega⟩
  · intro he
    rw [acSetTemperature, if_neg hnotout]
    have h0 := acLoop_oneStep target 0 30 current (by omega) (by omega)
    simpa using h0
  · intro hne
    rw [acSetTemperature, if_neg hnotout, acLoop_frozen target 30 current hne]
  · have hz := zoneLoop_oneStep zi target ((target - current).natAbs) 25 zs current hzi hsp
      rfl (by omega)
    rw [zoneSetValue, hz]
    exact ⟨rfl, rfl⟩
  · intro hne
    rw [zoneSetValue, zoneLoop_frozen zi target 25 zs current hzi hsp hne]

/-- Witness for C6 with range `[18, 28]`, start 20, target 23, and a
one-zone state: three nudges reach the target; the frozen device fails
after the full caps. -/
theorem c6_convergence_loops_witness :
    (acSetTemperature 18 28 (· + 1) (· - 1) 23 20).ok = true ∧
    (acSetTemperature 18 28 (· + 1) (· - 1) 23 20).nudges = 3 ∧
    acSetTemperature 18 28 id id 23 20 = ⟨false, 30, 30⟩ ∧
    (zoneSetValue (deviceTempUp 0) (deviceTempDown 0) 0 23 true [⟨some 20, 0⟩]).1 = true ∧
    zoneSetValue deviceFrozen deviceFrozen 0 23 true [⟨some 20, 0⟩] = (false, 25) := by
  have h := c6_convergence_loops 18 28 23 20 0 [⟨some 20, 0⟩] (by decide) (by decide)
    (by decide) (by decide) (by decide) (by decide) (by decide)
  exact ⟨h.1.1, by simpa using h.1.2.1, h.2.2.1 (by decide), h.2.2.2.1.1,
    h.2.2.2.2 (by decide)⟩

/-- C8: every `SystemState` produced by a successful decode of a
492-byte frame has exactly 2 AC units, exactly `zone_count` zones, and
`zone_count ≤ 16`.  (Because decoding any zone raises — see C1 — a
decode succeeds exactly when the frame's zone count byte is zero, which
makes the invariants hold.) -/
theorem c8_decoded_state_invariants (c : ProtocolConsts) (data : List Nat)
    (st : SystemState) (hlen : data.length = 492)
    (hok : parseState c data = .ok st) :
    st.ac_units.length = 2 ∧ st.zones.length = st.zone_count ∧ st.zone_count ≤ 16 := by
  cases hzc : data.getD 352 0 with
  | zero =>
    simp only [parseState] at hok
    rw [hzc] at hok
    simp only [parseZonesFrom, Except.ok.injEq] at hok
    subst hok
    refine ⟨?_, ?_, ?_⟩ <;> simp
  | succ n =>
    simp only [parseState] at hok
    rw [hzc] at hok
    simp only [parseZonesFrom, parseZone_eq_error] at hok
    cases hok

/-- Witness for C8 at the all-zero 492-byte frame with the sample
offsets: the decode succeeds and the invariants hold. -/
theorem c8_decoded_state_invariants_witness :
    (List.replicate 492 0).length = 492 ∧
    ∃ st, parseState sampleConsts (List.replicate 492 0) = .ok st ∧
      st.ac_units.length = 2 ∧ st.zones.length = st.zone_count ∧ st.zone_count ≤ 16 := by
  refine ⟨by simp only [List.length_replicate], ?_⟩
  exact ⟨_, rfl, c8_decoded_state_invariants sampleConsts (List.replicate 492 0) _
    (by simp only [List.length_replicate]) rfl⟩

end AirTouch3
